import Mathlib

/-!
Verification development for the py-landlock ruleset compatibility and
construction engine. The repository ships the core as the `py_landlock`
package (capability catalog, capability detector, `Landlock` ruleset
builder, syscall gateway); only its tests and examples are present under
`src/`, so the core is modelled here from the specification (spec.md),
with API details (class name `Landlock`, method defaults) pinned by the
unit tests in `src/tests/unit/test_landlock.py`.

Flag sets are modelled as `Finset`s over per-category enumerations; the
builder is a record; staging methods return the post-call builder state
together with an optional error (a raised Python exception leaves the
builder unmutated, which the pair encodes explicitly); `commit` (called
`apply` in the tests) additionally returns the ordered trace of syscall
gateway invocations it performed.
-/

/-- Modelled from the spec (§3): filesystem access flags. The catalog is
"non-exhaustive, catalog-driven"; we model exactly the flags the spec names. -/
inductive AccessFs where
  | execute
  | writeFile
  | readFile
  | readDir
  | removeDir
  | removeFile
  | makeChar
  | makeDir
  | makeReg
  | makeSock
  | makeFifo
  | makeBlock
  | makeSym
  | refer
  | truncate
deriving DecidableEq, Fintype

/-- Modelled from the spec (§3): network access flags. -/
inductive AccessNet where
  | bindTcp
  | connectTcp
deriving DecidableEq, Fintype

/-- Modelled from the spec (§3): IPC/signal scope flags. -/
inductive Scope where
  | abstractUnixSocket
  | signal
deriving DecidableEq, Fintype

/-- Modelled from the spec (§3, §4.1, §8): the minimum capability level that
introduces each filesystem flag. `refer` requires level ≥ 2 (§8 scenarios);
`truncate` was introduced at level 3 of the reference kernel feature history
this wrapper targets; the remaining flags are present from level 1. -/
def AccessFs.introLevel : AccessFs → Nat
  | .refer => 2
  | .truncate => 3
  | _ => 1

/-- Modelled from the spec (§4.1): network flags require capability level ≥ 4. -/
def AccessNet.introLevel : AccessNet → Nat
  | _ => 4

/-- Modelled from the spec (§4.1): scope flags require capability level ≥ 6. -/
def Scope.introLevel : Scope → Nat
  | _ => 6

/-- Modelled from the spec (§4.1): `supportedFlags(filesystem, level)` — every
filesystem flag whose introduction level is ≤ `level`. -/
def supportedFs (level : Nat) : Finset AccessFs :=
  Finset.univ.filter (fun f => f.introLevel ≤ level)

/-- Modelled from the spec (§4.1): `supportedFlags(network, level)`. -/
def supportedNet (level : Nat) : Finset AccessNet :=
  Finset.univ.filter (fun f => f.introLevel ≤ level)

/-- Modelled from the spec (§4.1): `supportedFlags(scope, level)`. -/
def supportedScope (level : Nat) : Finset Scope :=
  Finset.univ.filter (fun f => f.introLevel ≤ level)

/-- Modelled from the spec (§7) and the unit tests: the error taxonomy.
`lifecycleError` is the spec's `LifecycleError` (raised by the code as a
`RulesetError` matching "after apply"); `portRangeError` is the port range
`ValueError`; `noOperationError` is the "must specify at least one
operation" `ValueError`; the `compatibility*` variants carry every
unsupported flag of their category and the detected level. -/
inductive LLError where
  | lifecycleError
  | pathError (path : String)
  | portRangeError (port : Int)
  | noOperationError
  | compatibilityFs (unsupported : Finset AccessFs) (level : Nat)
  | compatibilityNet (unsupported : Finset AccessNet) (level : Nat)
  | compatibilityScope (unsupported : Finset Scope) (level : Nat)
  | rulesetError
deriving DecidableEq

/-- Modelled from the spec (§4.3): the filesystem, abstracted as a lookup
table from paths to their canonical absolute forms. The real code resolves
via the platform path API (absent from `src/`); a path not in the table does
not exist on the filesystem. -/
structure FileSystem where
  entries : List (String × String)
deriving DecidableEq

/-- Modelled from the spec (§4.3): resolve a path to its canonical absolute
form, or `none` when it does not exist. -/
def FileSystem.resolve (fs : FileSystem) (p : String) : Option String :=
  (fs.entries.find? (fun e => e.1 = p)).map (fun e => e.2)

/-- Modelled from the spec (§3): the `RulesetBuilder` state (the `Landlock`
class of the code, per the unit tests). `strict` is the mode; `abi` the
detected capability level (memoized at construction); the pending rule lists
are ordered; `applied` is the terminal `committed` boolean (`_applied` in
the tests). -/
structure Landlock where
  strict : Bool
  abi : Nat
  pendingPathRules : List (String × Finset AccessFs)
  pendingNetRules : List (Int × Finset AccessNet)
  allowedScope : Finset Scope
  allowAllNetFlag : Bool
  allowAllScopeFlag : Bool
  applied : Bool
deriving DecidableEq

/-- Modelled from the spec (§4.3): `addPathRule(path, access)`. Checks the
lifecycle guard, resolves the path (failing with `PathError` carrying the
offending path when it does not exist), runs the compatibility policy
against the filesystem category, drops the rule when the effective set is
empty, and otherwise appends a `PathRule` with the resolved path and the
effective access set. Returns the post-call builder and the raised error,
if any. -/
def Landlock.addPathRule (fs : FileSystem) (ll : Landlock) (p : String)
    (access : Finset AccessFs) : Landlock × Option LLError :=
  if ll.applied then (ll, some .lifecycleError)
  else
    match fs.resolve p with
    | none => (ll, some (.pathError p))
    | some abs =>
      let supported := supportedFs ll.abi
      let unsupported := access \ supported
      if ll.strict = true ∧ unsupported ≠ ∅ then
        (ll, some (.compatibilityFs unsupported ll.abi))
      else
        let effective := access ∩ supported
        if effective = ∅ then (ll, none)
        else
          ({ ll with pendingPathRules := ll.pendingPathRules ++ [(abs, effective)] }, none)

/-- Modelled from the spec (§4.3): `addNetRule(port, access)`. Checks the
lifecycle guard, validates `0 ≤ port ≤ 65535`, requires at least one of
{bind-tcp, connect-tcp}, runs the compatibility policy against the network
category, drops the rule when the effective set is empty, and otherwise
appends a `PortRule`. -/
def Landlock.addNetRule (ll : Landlock) (port : Int)
    (access : Finset AccessNet) : Landlock × Option LLError :=
  if ll.applied then (ll, some .lifecycleError)
  else if port < 0 ∨ 65535 < port then (ll, some (.portRangeError port))
  else if access = ∅ then (ll, some .noOperationError)
  else
    let supported := supportedNet ll.abi
    let unsupported := access \ supported
    if ll.strict = true ∧ unsupported ≠ ∅ then
      (ll, some (.compatibilityNet unsupported ll.abi))
    else
      let effective := access ∩ supported
      if effective = ∅ then (ll, none)
      else
        ({ ll with pendingNetRules := ll.pendingNetRules ++ [(port, effective)] }, none)

/-- Modelled from the spec (§4.3): `allowScope(flag)`. Runs the compatibility
policy against the scope category on the singleton request; when not dropped,
the effective flag is unioned into the accumulated permitted-scope set. -/
def Landlock.allowScope (ll : Landlock) (flag : Scope) : Landlock × Option LLError :=
  if ll.applied then (ll, some .lifecycleError)
  else
    let supported := supportedScope ll.abi
    let requested : Finset Scope := {flag}
    let unsupported := requested \ supported
    if ll.strict = true ∧ unsupported ≠ ∅ then
      (ll, some (.compatibilityScope unsupported ll.abi))
    else
      let effective := requested ∩ supported
      if effective = ∅ then (ll, none)
      else ({ ll with allowedScope := ll.allowedScope ∪ effective }, none)

/-- Modelled from the spec (§4.3): `allowAllNetwork()` sets the "network
fully permitted" standing override. -/
def Landlock.allowAllNetwork (ll : Landlock) : Landlock × Option LLError :=
  if ll.applied then (ll, some .lifecycleError)
  else ({ ll with allowAllNetFlag := true }, none)

/-- Modelled from the spec (§4.3): `allowAllScope()` sets the "scope fully
permitted" standing override. -/
def Landlock.allowAllScope (ll : Landlock) : Landlock × Option LLError :=
  if ll.applied then (ll, some .lifecycleError)
  else ({ ll with allowAllScopeFlag := true }, none)

/-- Modelled from the spec (§4.3) and the unit tests: the `allow_network`
convenience method builds the access set from the `bind` and `connect`
booleans and delegates to `addNetRule`. -/
def Landlock.allowNetwork (ll : Landlock) (port : Int) (bind connect : Bool) :
    Landlock × Option LLError :=
  ll.addNetRule port
    ((if bind then {AccessNet.bindTcp} else ∅) ∪
     (if connect then {AccessNet.connectTcp} else ∅))

/-- Modelled from the unit tests (`test_both_bind_and_connect`): the Python
signature of `allow_network` defaults both `bind` and `connect` to true;
`allow_network(port)` with no keyword arguments is this call. -/
def Landlock.allowNetworkDefault (ll : Landlock) (port : Int) :
    Landlock × Option LLError :=
  ll.allowNetwork port true true

/-- Modelled from the spec (§6): one invocation of the Syscall Gateway, as
recorded in the order `commit` performs them. -/
inductive GatewayCall where
  | setNoNewPrivs
  | createRuleset (handledFs : Finset AccessFs) (handledNet : Finset AccessNet)
  | addRuleFs (path : String) (access : Finset AccessFs)
  | addRuleNet (port : Int) (access : Finset AccessNet)
  | restrictSelf (restrictedScope : Finset Scope)
  | closeFd (fd : Nat)
deriving DecidableEq

/-- Whether a gateway call is a rule submission (step 7 or 8 of the commit
protocol). -/
def GatewayCall.isRule : GatewayCall → Bool
  | .addRuleFs _ _ => true
  | .addRuleNet _ _ => true
  | _ => false

/-- Modelled from the spec (§6): an oracle for the outcomes of the fallible
Syscall Gateway primitives during one `commit`. `createRulesetFd` is the
returned handle on success, `none` on failure. -/
structure Gateway where
  noNewPrivsOk : Bool
  createRulesetFd : Option Nat
  pathRuleOk : String → Finset AccessFs → Bool
  netRuleOk : Int → Finset AccessNet → Bool
  restrictOk : Bool

/-- Modelled from the spec (§4.4 step 3): `handledFs` — the union of the
access sets of all staged PathRules. -/
def Landlock.handledFs (ll : Landlock) : Finset AccessFs :=
  ll.pendingPathRules.foldr (fun r s => r.2 ∪ s) ∅

/-- Modelled from the spec (§4.4 step 4): `handledNet` — empty when "network
fully permitted" is set (overriding any staged PortRules), otherwise the
union of the staged PortRules' access sets. -/
def Landlock.handledNet (ll : Landlock) : Finset AccessNet :=
  if ll.allowAllNetFlag then ∅
  else ll.pendingNetRules.foldr (fun r s => r.2 ∪ s) ∅

/-- Modelled from the spec (§4.4 step 5): `restrictedScope` — empty when
"scope fully permitted" is set, otherwise the supported scope flags minus
the accumulated permitted-scope set. -/
def Landlock.restrictedScope (ll : Landlock) : Finset Scope :=
  if ll.allowAllScopeFlag then ∅
  else supportedScope ll.abi \ ll.allowedScope

/-- Modelled from the spec (§4.4 step 7): submit each staged PathRule in
order, stopping at the first gateway refusal. Returns the calls made and
whether all succeeded. -/
def submitPathRules (gw : Gateway) : List (String × Finset AccessFs) →
    List GatewayCall × Bool
  | [] => ([], true)
  | (p, a) :: rest =>
    if gw.pathRuleOk p a then
      let r := submitPathRules gw rest
      (GatewayCall.addRuleFs p a :: r.1, r.2)
    else ([GatewayCall.addRuleFs p a], false)

/-- Modelled from the spec (§4.4 step 8): submit each staged PortRule in
order, stopping at the first gateway refusal. -/
def submitNetRules (gw : Gateway) : List (Int × Finset AccessNet) →
    List GatewayCall × Bool
  | [] => ([], true)
  | (p, a) :: rest =>
    if gw.netRuleOk p a then
      let r := submitNetRules gw rest
      (GatewayCall.addRuleNet p a :: r.1, r.2)
    else ([GatewayCall.addRuleNet p a], false)

/-- Modelled from the spec (§4.4): `commit()` (the `apply` method of the
code). Guards the lifecycle, then in order: disables further privilege
acquisition, creates the ruleset handle declaring `handledFs` and
`handledNet`, submits staged PathRules, submits staged PortRules only when
`handledNet` is nonempty, commits the handle with `restrictedScope`, and
releases the handle unconditionally whenever one was created. Any failure
aborts the remaining steps (except the release) and the builder is marked
terminal regardless of success or failure. Returns the post-call builder,
the ordered gateway-call trace, and the surfaced error, if any. -/
def Landlock.commit (gw : Gateway) (ll : Landlock) :
    Landlock × List GatewayCall × Option LLError :=
  if ll.applied then (ll, [], some .lifecycleError)
  else
    let term := { ll with applied := true }
    if gw.noNewPrivsOk = false then
      (term, [.setNoNewPrivs], some .rulesetError)
    else
      match gw.createRulesetFd with
      | none =>
        (term, [.setNoNewPrivs, .createRuleset ll.handledFs ll.handledNet],
         some .rulesetError)
      | some fd =>
        let hdr : List GatewayCall :=
          [.setNoNewPrivs, .createRuleset ll.handledFs ll.handledNet]
        let pr := submitPathRules gw ll.pendingPathRules
        if pr.2 = false then
          (term, hdr ++ pr.1 ++ [.closeFd fd], some .rulesetError)
        else
          let nr :=
            if ll.handledNet = ∅ then (([] : List GatewayCall), true)
            else submitNetRules gw ll.pendingNetRules
          if nr.2 = false then
            (term, hdr ++ pr.1 ++ nr.1 ++ [.closeFd fd], some .rulesetError)
          else
            (term,
             hdr ++ pr.1 ++ nr.1 ++
               [.restrictSelf ll.restrictedScope, .closeFd fd],
             if gw.restrictOk then none else some .rulesetError)

/-- The shape every `commit` gateway trace takes on a non-terminal builder:
privilege acquisition is disabled first; the ruleset is created (declaring
the handled masks) before any rule is submitted; all rule submissions
precede the self-restriction call; and the handle release is the final
call whenever a handle was created. -/
def commitShape (ll : Landlock) (tr : List GatewayCall) : Prop :=
  tr = [GatewayCall.setNoNewPrivs] ∨
  tr = [GatewayCall.setNoNewPrivs,
        GatewayCall.createRuleset ll.handledFs ll.handledNet] ∨
  ∃ fd rules scopePart,
    tr = GatewayCall.setNoNewPrivs ::
         GatewayCall.createRuleset ll.handledFs ll.handledNet ::
         (rules ++ scopePart ++ [GatewayCall.closeFd fd]) ∧
    (∀ c ∈ rules, c.isRule = true) ∧
    (scopePart = [] ∨ scopePart = [GatewayCall.restrictSelf ll.restrictedScope])

/-! Shared concrete instances used by the witness theorems. -/

/-- A filesystem with one existing path. -/
def fs0 : FileSystem := ⟨[("f.txt", "/tmp/f.txt")]⟩

/-- A fresh strict builder at capability level 5. -/
def ll0 : Landlock := ⟨true, 5, [], [], ∅, false, false, false⟩

/-- A gateway on which every primitive succeeds, returning handle 10. -/
def gw0 : Gateway := ⟨true, some 10, fun _ _ => true, fun _ _ => true, true⟩

/-- C9: `supportedFlags` is monotone in the capability level for each of the
three categories, the network category is empty below level 4, and the scope
category is empty below level 6. -/
theorem supported_flags_monotone (L1 L2 : Nat) (h : L1 < L2) :
    supportedFs L1 ⊆ supportedFs L2 ∧
    supportedNet L1 ⊆ supportedNet L2 ∧
    supportedScope L1 ⊆ supportedScope L2 ∧
    (∀ L, L < 4 → supportedNet L = ∅) ∧
    (∀ L, L < 6 → supportedScope L = ∅) := by
  refine ⟨?_, ?_, ?_, ?_, ?_⟩
  · intro f hf
    simp only [supportedFs, Finset.mem_filter, Finset.mem_univ, true_and] at *
    omega
  · intro f hf
    simp only [supportedNet, Finset.mem_filter, Finset.mem_univ, true_and] at *
    omega
  · intro f hf
    simp only [supportedScope, Finset.mem_filter, Finset.mem_univ, true_and] at *
    omega
  · intro L hL
    apply Finset.eq_empty_iff_forall_not_mem.mpr
    intro f
    cases f <;> simp [supportedNet, AccessNet.introLevel] <;> omega
  · intro L hL
    apply Finset.eq_empty_iff_forall_not_mem.mpr
    intro f
    cases f <;> simp [supportedScope, Scope.introLevel] <;> omega

/-- Witness for C9 at levels 1 < 2. -/
theorem supported_flags_monotone_witness :
    supportedFs 1 ⊆ supportedFs 2 ∧
    supportedNet 1 ⊆ supportedNet 2 ∧
    supportedScope 1 ⊆ supportedScope 2 ∧
    (∀ L, L < 4 → supportedNet L = ∅) ∧
    (∀ L, L < 6 → supportedScope L = ∅) :=
  supported_flags_monotone 1 2 (by decide)

/-- C1: on a builder in the terminal committed state, every staging
operation and `commit()` itself fail with `LifecycleError`, and the failed
call returns the builder completely unchanged (in particular its pending
path rules, pending port rules and accumulated scope set). -/
theorem committed_rejects_all_calls (fs : FileSystem) (ll : Landlock)
    (p : String) (a : Finset AccessFs) (port : Int) (na : Finset AccessNet)
    (sf : Scope) (gw : Gateway) (h : ll.applied = true) :
    Landlock.addPathRule fs ll p a = (ll, some LLError.lifecycleError) ∧
    ll.addNetRule port na = (ll, some LLError.lifecycleError) ∧
    ll.allowScope sf = (ll, some LLError.lifecycleError) ∧
    ll.allowAllNetwork = (ll, some LLError.lifecycleError) ∧
    ll.allowAllScope = (ll, some LLError.lifecycleError) ∧
    Landlock.commit gw ll = (ll, [], some LLError.lifecycleError) := by
  refine ⟨?_, ?_, ?_, ?_, ?_, ?_⟩ <;>
    simp [Landlock.addPathRule, Landlock.addNetRule, Landlock.allowScope,
      Landlock.allowAllNetwork, Landlock.allowAllScope, Landlock.commit, h]

/-- Witness for C1 on a concrete committed builder. -/
theorem committed_rejects_all_calls_witness :
    Landlock.addPathRule fs0 ⟨true, 5, [], [], ∅, false, false, true⟩ "f.txt"
        {AccessFs.readFile} =
      (⟨true, 5, [], [], ∅, false, false, true⟩, some LLError.lifecycleError) ∧
    Landlock.addNetRule ⟨true, 5, [], [], ∅, false, false, true⟩ 443
        {AccessNet.connectTcp} =
      (⟨true, 5, [], [], ∅, false, false, true⟩, some LLError.lifecycleError) ∧
    Landlock.allowScope ⟨true, 5, [], [], ∅, false, false, true⟩ Scope.signal =
      (⟨true, 5, [], [], ∅, false, false, true⟩, some LLError.lifecycleError) ∧
    Landlock.allowAllNetwork ⟨true, 5, [], [], ∅, false, false, true⟩ =
      (⟨true, 5, [], [], ∅, false, false, true⟩, some LLError.lifecycleError) ∧
    Landlock.allowAllScope ⟨true, 5, [], [], ∅, false, false, true⟩ =
      (⟨true, 5, [], [], ∅, false, false, true⟩, some LLError.lifecycleError) ∧
    Landlock.commit gw0 ⟨true, 5, [], [], ∅, false, false, true⟩ =
      (⟨true, 5, [], [], ∅, false, false, true⟩, [], some LLError.lifecycleError) :=
  committed_rejects_all_calls fs0 ⟨true, 5, [], [], ∅, false, false, true⟩
    "f.txt" {AccessFs.readFile} 443 {AccessNet.connectTcp} Scope.signal gw0 rfl

/-- C6: `addPathRule` on a path that does not exist raises `PathError`
carrying the offending path and leaves the builder (in particular its
pending path-rule collection) unchanged, in strict and best-effort mode
alike (the builder's mode is arbitrary here). -/
theorem addPathRule_nonexistent_path_error (fs : FileSystem) (ll : Landlock)
    (p : String) (a : Finset AccessFs) (happ : ll.applied = false)
    (hres : fs.resolve p = none) :
    Landlock.addPathRule fs ll p a = (ll, some (LLError.pathError p)) := by
  simp [Landlock.addPathRule, happ, hres]

/-- Witness for C6: a fresh builder and a missing path, in both modes. -/
theorem addPathRule_nonexistent_path_error_witness :
    Landlock.addPathRule fs0 ll0 "missing" {AccessFs.readFile} =
      (ll0, some (LLError.pathError "missing")) ∧
    Landlock.addPathRule fs0 ⟨false, 5, [], [], ∅, false, false, false⟩
        "missing" {AccessFs.readFile} =
      (⟨false, 5, [], [], ∅, false, false, false⟩,
       some (LLError.pathError "missing")) :=
  ⟨addPathRule_nonexistent_path_error fs0 ll0 "missing" {AccessFs.readFile}
      rfl rfl,
   addPathRule_nonexistent_path_error fs0
      ⟨false, 5, [], [], ∅, false, false, false⟩ "missing"
      {AccessFs.readFile} rfl rfl⟩

/-- C8: `addNetRule` on a valid port with an access set containing neither
bind-tcp nor connect-tcp (the empty set, as those are the only network
flags) always fails with the "must specify at least one operation" error
and stages no PortRule, for every mode and every detected level. -/
theorem addNetRule_no_operation (ll : Landlock) (port : Int)
    (happ : ll.applied = false) (h0 : 0 ≤ port) (h1 : port ≤ 65535) :
    ll.addNetRule port ∅ = (ll, some LLError.noOperationError) := by
  have hor : ¬(port < 0 ∨ 65535 < port) := by omega
  simp [Landlock.addNetRule, happ, hor]

/-- Witness for C8 at port 443 on a strict level-5 builder. -/
theorem addNetRule_no_operation_witness :
    Landlock.addNetRule ll0 443 ∅ = (ll0, some LLError.noOperationError) :=
  addNetRule_no_operation ll0 443 rfl (by decide) (by decide)

/-- C2: in strict mode, a staging call whose requested flag set contains at
least one flag unsupported at the detected level fails with a
`CompatibilityError` carrying exactly the unsupported flags
(`requested \ supported`) and the detected level, and leaves the builder
(in particular the pending collections) unchanged — for the filesystem,
network, and scope categories alike. -/
theorem strict_unsupported_compatibility_error (fs : FileSystem)
    (ll : Landlock) (p abs : String) (a : Finset AccessFs) (port : Int)
    (na : Finset AccessNet) (sf : Scope) (hstrict : ll.strict = true)
    (happ : ll.applied = false) :
    (fs.resolve p = some abs → a \ supportedFs ll.abi ≠ ∅ →
      Landlock.addPathRule fs ll p a =
        (ll, some (LLError.compatibilityFs (a \ supportedFs ll.abi) ll.abi))) ∧
    (0 ≤ port → port ≤ 65535 → na ≠ ∅ → na \ supportedNet ll.abi ≠ ∅ →
      ll.addNetRule port na =
        (ll, some (LLError.compatibilityNet (na \ supportedNet ll.abi) ll.abi))) ∧
    (({sf} : Finset Scope) \ supportedScope ll.abi ≠ ∅ →
      ll.allowScope sf =
        (ll, some (LLError.compatibilityScope
          (({sf} : Finset Scope) \ supportedScope ll.abi) ll.abi))) := by
  refine ⟨?_, ?_, ?_⟩
  · intro hres huns
    simp [Landlock.addPathRule, happ, hres, hstrict, huns]
  · intro h0 h1 hne huns
    have hor : ¬(port < 0 ∨ 65535 < port) := by omega
    simp [Landlock.addNetRule, happ, hor, hne, hstrict, huns]
  · intro huns
    simp [Landlock.allowScope, happ, hstrict, huns]

/-- Witness for C2: refer at level 1 (filesystem), connect-tcp at level 3
(network), signal at level 5 (scope), each on a strict builder. -/
theorem strict_unsupported_compatibility_error_witness :
    (Landlock.addPathRule fs0 ⟨true, 1, [], [], ∅, false, false, false⟩
        "f.txt" {AccessFs.refer} =
      (⟨true, 1, [], [], ∅, false, false, false⟩,
       some (LLError.compatibilityFs ({AccessFs.refer} \ supportedFs 1) 1))) ∧
    (Landlock.addNetRule ⟨true, 3, [], [], ∅, false, false, false⟩ 443
        {AccessNet.connectTcp} =
      (⟨true, 3, [], [], ∅, false, false, false⟩,
       some (LLError.compatibilityNet
         ({AccessNet.connectTcp} \ supportedNet 3) 3))) ∧
    (Landlock.allowScope ⟨true, 5, [], [], ∅, false, false, false⟩
        Scope.signal =
      (⟨true, 5, [], [], ∅, false, false, false⟩,
       some (LLError.compatibilityScope
         (({Scope.signal} : Finset Scope) \ supportedScope 5) 5))) := by
  refine ⟨?_, ?_, ?_⟩
  · exact (strict_unsupported_compatibility_error fs0
      ⟨true, 1, [], [], ∅, false, false, false⟩ "f.txt" "/tmp/f.txt"
      {AccessFs.refer} 443 {AccessNet.connectTcp} Scope.signal rfl rfl).1
      rfl (by decide)
  · exact (strict_unsupported_compatibility_error fs0
      ⟨true, 3, [], [], ∅, false, false, false⟩ "f.txt" "/tmp/f.txt"
      {AccessFs.refer} 443 {AccessNet.connectTcp} Scope.signal rfl rfl).2.1
      (by decide) (by decide) (by decide) (by decide)
  · exact (strict_unsupported_compatibility_error fs0
      ⟨true, 5, [], [], ∅, false, false, false⟩ "f.txt" "/tmp/f.txt"
      {AccessFs.refer} 443 {AccessNet.connectTcp} Scope.signal rfl rfl).2.2
      (by decide)

/-- C3: in best-effort mode, a staging call whose requested flag set filters
to an empty effective set stages nothing at all (the builder is unchanged —
no zero-access rule is stored) and raises no error, uniformly for path
rules, port rules, and scope flags. -/
theorem best_effort_empty_effective_drops (fs : FileSystem) (ll : Landlock)
    (p abs : String) (a : Finset AccessFs) (port : Int)
    (na : Finset AccessNet) (sf : Scope) (hbe : ll.strict = false)
    (happ : ll.applied = false) :
    (fs.resolve p = some abs → a ∩ supportedFs ll.abi = ∅ →
      Landlock.addPathRule fs ll p a = (ll, none)) ∧
    (0 ≤ port → port ≤ 65535 → na ≠ ∅ → na ∩ supportedNet ll.abi = ∅ →
      ll.addNetRule port na = (ll, none)) ∧
    (({sf} : Finset Scope) ∩ supportedScope ll.abi = ∅ →
      ll.allowScope sf = (ll, none)) := by
  refine ⟨?_, ?_, ?_⟩
  · intro hres heff
    simp [Landlock.addPathRule, happ, hres, hbe, heff]
  · intro h0 h1 hne heff
    have hor : ¬(port < 0 ∨ 65535 < port) := by omega
    simp [Landlock.addNetRule, happ, hor, hne, hbe, heff]
  · intro heff
    simp [Landlock.allowScope, happ, hbe, heff]

/-- Witness for C3: refer-only at level 1 (path rule), connect-tcp at
level 3 (port rule, network below level 4), signal at level 5 (scope below
level 6), each on a best-effort builder. -/
theorem best_effort_empty_effective_drops_witness :
    (Landlock.addPathRule fs0 ⟨false, 1, [], [], ∅, false, false, false⟩
        "f.txt" {AccessFs.refer} =
      (⟨false, 1, [], [], ∅, false, false, false⟩, none)) ∧
    (Landlock.addNetRule ⟨false, 3, [], [], ∅, false, false, false⟩ 443
        {AccessNet.connectTcp} =
      (⟨false, 3, [], [], ∅, false, false, false⟩, none)) ∧
    (Landlock.allowScope ⟨false, 5, [], [], ∅, false, false, false⟩
        Scope.signal =
      (⟨false, 5, [], [], ∅, false, false, false⟩, none)) := by
  refine ⟨?_, ?_, ?_⟩
  · exact (best_effort_empty_effective_drops fs0
      ⟨false, 1, [], [], ∅, false, false, false⟩ "f.txt" "/tmp/f.txt"
      {AccessFs.refer} 443 {AccessNet.connectTcp} Scope.signal rfl rfl).1
      rfl (by decide)
  · exact (best_effort_empty_effective_drops fs0
      ⟨false, 3, [], [], ∅, false, false, false⟩ "f.txt" "/tmp/f.txt"
      {AccessFs.refer} 443 {AccessNet.connectTcp} Scope.signal rfl rfl).2.1
      (by decide) (by decide) (by decide) (by decide)
  · exact (best_effort_empty_effective_drops fs0
      ⟨false, 5, [], [], ∅, false, false, false⟩ "f.txt" "/tmp/f.txt"
      {AccessFs.refer} 443 {AccessNet.connectTcp} Scope.signal rfl rfl).2.2
      (by decide)

/-- C7: in best-effort mode, `addPathRule` on an existing path whose
requested set contains both supported and unsupported flags stages exactly
one new PathRule carrying exactly the supported subset
(`requested ∩ supported`), silently and without error. -/
theorem best_effort_filters_and_stages (fs : FileSystem) (ll : Landlock)
    (p abs : String) (a : Finset AccessFs) (hbe : ll.strict = false)
    (happ : ll.applied = false) (hres : fs.resolve p = some abs)
    (hsup : a ∩ supportedFs ll.abi ≠ ∅) (_huns : a \ supportedFs ll.abi ≠ ∅) :
    Landlock.addPathRule fs ll p a =
      ({ ll with pendingPathRules :=
          ll.pendingPathRules ++ [(abs, a ∩ supportedFs ll.abi)] }, none) := by
  simp [Landlock.addPathRule, happ, hres, hbe, hsup]

/-- Witness for C7: level 1, best-effort, readFile|refer on an existing
file stages exactly one rule with readFile and without refer. -/
theorem best_effort_filters_and_stages_witness :
    Landlock.addPathRule fs0 ⟨false, 1, [], [], ∅, false, false, false⟩
        "f.txt" {AccessFs.readFile, AccessFs.refer} =
      (⟨false, 1, [("/tmp/f.txt",
          ({AccessFs.readFile, AccessFs.refer} : Finset AccessFs) ∩
            supportedFs 1)], [], ∅, false, false, false⟩, none) ∧
    ({AccessFs.readFile, AccessFs.refer} : Finset AccessFs) ∩ supportedFs 1 =
      {AccessFs.readFile} :=
  ⟨best_effort_filters_and_stages fs0
      ⟨false, 1, [], [], ∅, false, false, false⟩ "f.txt" "/tmp/f.txt"
      {AccessFs.readFile, AccessFs.refer} rfl rfl rfl (by decide) (by decide),
   by decide⟩

/-- At capability level ≥ 4, both network flags are supported. -/
theorem supportedNet_ge_four (L : Nat) (h : 4 ≤ L) :
    supportedNet L = {AccessNet.bindTcp, AccessNet.connectTcp} := by
  ext f
  cases f <;> simp [supportedNet, AccessNet.introLevel, h]

/-- C10: `allow_network(port)` with its default arguments (`bind=True`,
`connect=True`, per the unit tests; the spec does not state the default)
on a valid port at a level supporting the network category stages exactly
one PortRule whose access set contains both bind-tcp and connect-tcp, and
raises no error. -/
theorem allowNetworkDefault_stages_both (ll : Landlock) (port : Int)
    (happ : ll.applied = false) (h0 : 0 ≤ port) (h1 : port ≤ 65535)
    (habi : 4 ≤ ll.abi) :
    ll.allowNetworkDefault port =
      ({ ll with pendingNetRules := ll.pendingNetRules ++
          [(port, {AccessNet.bindTcp, AccessNet.connectTcp})] }, none) := by
  have hor : ¬(port < 0 ∨ 65535 < port) := by omega
  have hsup := supportedNet_ge_four ll.abi habi
  have haccess : ({AccessNet.bindTcp} : Finset AccessNet) ∪
      {AccessNet.connectTcp} = {AccessNet.bindTcp, AccessNet.connectTcp} := by
    decide
  have hne : ({AccessNet.bindTcp, AccessNet.connectTcp} : Finset AccessNet) ≠
      ∅ := by decide
  have hdiff : ({AccessNet.bindTcp, AccessNet.connectTcp} : Finset AccessNet) \
      {AccessNet.bindTcp, AccessNet.connectTcp} = ∅ := by decide
  have hinter : ({AccessNet.bindTcp, AccessNet.connectTcp} : Finset AccessNet) ∩
      {AccessNet.bindTcp, AccessNet.connectTcp} =
      {AccessNet.bindTcp, AccessNet.connectTcp} := by decide
  simp [Landlock.allowNetworkDefault, Landlock.allowNetwork,
    Landlock.addNetRule, happ, hor, haccess, hsup, hne, hdiff, hinter]

/-- Witness for C10 at port 443 on a strict level-5 builder. -/
theorem allowNetworkDefault_stages_both_witness :
    Landlock.allowNetworkDefault ll0 443 =
      (⟨true, 5, [], [(443, {AccessNet.bindTcp, AccessNet.connectTcp})], ∅,
        false, false, false⟩, none) :=
  allowNetworkDefault_stages_both ll0 443 rfl (by decide) (by decide)
    (by decide)

/-- Every call emitted by the PathRule submission loop is a filesystem rule
submission. -/
theorem submitPathRules_mem_fs (gw : Gateway)
    (l : List (String × Finset AccessFs)) :
    ∀ c ∈ (submitPathRules gw l).1, ∃ p a, c = GatewayCall.addRuleFs p a := by
  induction l with
  | nil => simp [submitPathRules]
  | cons hd tl ih =>
    obtain ⟨p, a⟩ := hd
    by_cases hok : gw.pathRuleOk p a
    · simp only [submitPathRules, hok, if_true]
      intro c hc
      rcases List.mem_cons.mp hc with rfl | hc
      · exact ⟨p, a, rfl⟩
      · exact ih c hc
    · simp only [submitPathRules, hok, if_false]
      intro c hc
      rcases List.mem_singleton.mp hc with rfl
      exact ⟨p, a, rfl⟩

/-- Every call emitted by the PortRule submission loop is a network rule
submission. -/
theorem submitNetRules_mem_net (gw : Gateway)
    (l : List (Int × Finset AccessNet)) :
    ∀ c ∈ (submitNetRules gw l).1, ∃ p a, c = GatewayCall.addRuleNet p a := by
  induction l with
  | nil => simp [submitNetRules]
  | cons hd tl ih =>
    obtain ⟨p, a⟩ := hd
    by_cases hok : gw.netRuleOk p a
    · simp only [submitNetRules, hok, if_true]
      intro c hc
      rcases List.mem_cons.mp hc with rfl | hc
      · exact ⟨p, a, rfl⟩
      · exact ih c hc
    · simp only [submitNetRules, hok, if_false]
      intro c hc
      rcases List.mem_singleton.mp hc with rfl
      exact ⟨p, a, rfl⟩

/-- C5: once `allowAllNetwork()` has set the "network fully permitted"
override, at commit time the handled network mask is empty and no staged
PortRule is ever submitted to the gateway, whatever PortRules were staged
before or after that call and whatever the gateway outcomes. -/
theorem allowAllNetwork_commit_skips_port_rules (gw : Gateway)
    (ll : Landlock) (happ : ll.applied = false)
    (hnet : ll.allowAllNetFlag = true) :
    ll.handledNet = ∅ ∧
    ∀ p a, GatewayCall.addRuleNet p a ∉ (Landlock.commit gw ll).2.1 := by
  have hh : ll.handledNet = ∅ := by simp [Landlock.handledNet, hnet]
  refine ⟨hh, ?_⟩
  intro p a hmem
  cases hnnp : gw.noNewPrivsOk with
  | false => simp [Landlock.commit, happ, hnnp] at hmem
  | true =>
    cases hcr : gw.createRulesetFd with
    | none => simp [Landlock.commit, happ, hnnp, hcr] at hmem
    | some fd =>
      cases hpr : (submitPathRules gw ll.pendingPathRules).2 with
      | false =>
        simp [Landlock.commit, happ, hnnp, hcr, hpr] at hmem
        obtain ⟨q, b, heq⟩ :=
          submitPathRules_mem_fs gw ll.pendingPathRules _ hmem
        simp at heq
      | true =>
        simp [Landlock.commit, happ, hnnp, hcr, hpr, hh] at hmem
        obtain ⟨q, b, heq⟩ :=
          submitPathRules_mem_fs gw ll.pendingPathRules _ hmem
        simp at heq

/-- Witness for C5: a builder with one staged PortRule and the override
set; the commit trace contains no network rule submission. -/
theorem allowAllNetwork_commit_skips_port_rules_witness :
    Landlock.handledNet
        ⟨true, 5, [], [(443, {AccessNet.connectTcp})], ∅, true, false,
          false⟩ = ∅ ∧
    ∀ p a, GatewayCall.addRuleNet p a ∉
      (Landlock.commit gw0
        ⟨true, 5, [], [(443, {AccessNet.connectTcp})], ∅, true, false,
          false⟩).2.1 :=
  allowAllNetwork_commit_skips_port_rules gw0
    ⟨true, 5, [], [(443, {AccessNet.connectTcp})], ∅, true, false, false⟩
    rfl rfl

/-- C4: on a non-terminal builder, `commit()` performs its gateway calls in
the fixed order — privilege acquisition is disabled first, the ruleset
handle is created (declaring the handled masks) before any rule submission,
every rule submission precedes the self-restriction call, and whenever a
handle was created it is released by the final call of the trace, on every
exit path (also when a later step failed) — and afterwards the builder is
terminal. -/
theorem commit_protocol_order (gw : Gateway) (ll : Landlock)
    (h : ll.applied = false) :
    (Landlock.commit gw ll).1.applied = true ∧
    commitShape ll (Landlock.commit gw ll).2.1 ∧
    (∀ fd, gw.noNewPrivsOk = true → gw.createRulesetFd = some fd →
      GatewayCall.closeFd fd ∈ (Landlock.commit gw ll).2.1) := by
  cases hnnp : gw.noNewPrivsOk with
  | false =>
    refine ⟨by simp [Landlock.commit, h, hnnp], ?_, ?_⟩
    · have hc : (Landlock.commit gw ll).2.1 = [GatewayCall.setNoNewPrivs] := by
        simp [Landlock.commit, h, hnnp]
      rw [hc]
      exact Or.inl rfl
    · exact fun fd hfd _ => Bool.noConfusion hfd
  | true =>
    cases hcr : gw.createRulesetFd with
    | none =>
      refine ⟨by simp [Landlock.commit, h, hnnp, hcr], ?_, ?_⟩
      · have hc : (Landlock.commit gw ll).2.1 =
            [GatewayCall.setNoNewPrivs,
             GatewayCall.createRuleset ll.handledFs ll.handledNet] := by
          simp [Landlock.commit, h, hnnp, hcr]
        rw [hc]
        exact Or.inr (Or.inl rfl)
      · exact fun fd _ hfd => Option.noConfusion hfd
    | some fd =>
      cases hpr : (submitPathRules gw ll.pendingPathRules).2 with
      | false =>
        refine ⟨by simp [Landlock.commit, h, hnnp, hcr, hpr], ?_, ?_⟩
        · refine Or.inr (Or.inr ⟨fd,
            (submitPathRules gw ll.pendingPathRules).1, [], ?_, ?_, Or.inl rfl⟩)
          · simp [Landlock.commit, h, hnnp, hcr, hpr]
          · intro c hc'
            obtain ⟨p, a, rfl⟩ :=
              submitPathRules_mem_fs gw ll.pendingPathRules c hc'
            rfl
        · intro fd' _ hf
          injection hf with h'
          subst h'
          simp [Landlock.commit, h, hnnp, hcr, hpr]
      | true =>
        by_cases hnet : ll.handledNet = ∅
        · refine ⟨by simp [Landlock.commit, h, hnnp, hcr, hpr, hnet], ?_, ?_⟩
          · refine Or.inr (Or.inr ⟨fd,
              (submitPathRules gw ll.pendingPathRules).1,
              [GatewayCall.restrictSelf ll.restrictedScope], ?_, ?_,
              Or.inr rfl⟩)
            · simp [Landlock.commit, h, hnnp, hcr, hpr, hnet]
            · intro c hc'
              obtain ⟨p, a, rfl⟩ :=
                submitPathRules_mem_fs gw ll.pendingPathRules c hc'
              rfl
          · intro fd' _ hf
            injection hf with h'
            subst h'
            simp [Landlock.commit, h, hnnp, hcr, hpr, hnet]
        · cases hnr : (submitNetRules gw ll.pendingNetRules).2 with
          | false =>
            refine ⟨by simp [Landlock.commit, h, hnnp, hcr, hpr, hnet, hnr],
              ?_, ?_⟩
            · refine Or.inr (Or.inr ⟨fd,
                (submitPathRules gw ll.pendingPathRules).1 ++
                  (submitNetRules gw ll.pendingNetRules).1, [], ?_, ?_,
                Or.inl rfl⟩)
              · simp [Landlock.commit, h, hnnp, hcr, hpr, hnet, hnr]
              · intro c hc'
                rcases List.mem_append.mp hc' with hc' | hc'
                · obtain ⟨p, a, rfl⟩ :=
                    submitPathRules_mem_fs gw ll.pendingPathRules c hc'
                  rfl
                · obtain ⟨p, a, rfl⟩ :=
                    submitNetRules_mem_net gw ll.pendingNetRules c hc'
                  rfl
            · intro fd' _ hf
              injection hf with h'
              subst h'
              simp [Landlock.commit, h, hnnp, hcr, hpr, hnet, hnr]
          | true =>
            refine ⟨by simp [Landlock.commit, h, hnnp, hcr, hpr, hnet, hnr],
              ?_, ?_⟩
            · refine Or.inr (Or.inr ⟨fd,
                (submitPathRules gw ll.pendingPathRules).1 ++
                  (submitNetRules gw ll.pendingNetRules).1,
                [GatewayCall.restrictSelf ll.restrictedScope], ?_, ?_,
                Or.inr rfl⟩)
              · simp [Landlock.commit, h, hnnp, hcr, hpr, hnet, hnr]
              · intro c hc'
                rcases List.mem_append.mp hc' with hc' | hc'
                · obtain ⟨p, a, rfl⟩ :=
                    submitPathRules_mem_fs gw ll.pendingPathRules c hc'
                  rfl
                · obtain ⟨p, a, rfl⟩ :=
                    submitNetRules_mem_net gw ll.pendingNetRules c hc'
                  rfl
            · intro fd' _ hf
              injection hf with h'
              subst h'
              simp [Landlock.commit, h, hnnp, hcr, hpr, hnet, hnr]

/-- Witness for C4: committing a fresh builder with one staged PathRule on
the all-success gateway. -/
theorem commit_protocol_order_witness :
    (Landlock.commit gw0
        ⟨true, 5, [("/tmp/f.txt", {AccessFs.readFile})], [], ∅, false,
          false, false⟩).1.applied = true ∧
    commitShape
      ⟨true, 5, [("/tmp/f.txt", {AccessFs.readFile})], [], ∅, false, false,
        false⟩
      (Landlock.commit gw0
        ⟨true, 5, [("/tmp/f.txt", {AccessFs.readFile})], [], ∅, false,
          false, false⟩).2.1 ∧
    (∀ fd, gw0.noNewPrivsOk = true → gw0.createRulesetFd = some fd →
      GatewayCall.closeFd fd ∈
        (Landlock.commit gw0
          ⟨true, 5, [("/tmp/f.txt", {AccessFs.readFile})], [], ∅, false,
            false, false⟩).2.1) :=
  commit_protocol_order gw0
    ⟨true, 5, [("/tmp/f.txt", {AccessFs.readFile})], [], ∅, false, false,
      false⟩ rfl
